import Mathlib

set_option maxRecDepth 100000

/-!
Verification development for the script-evaluation core of the
stealth-addresses reference implementation
(`src/lib/python-bitcoinlib/bitcoin/core/scripteval.py`).

The Python module is embedded shallowly:

* byte strings (`bytes`) become `List Nat` (one entry per byte);
* the mutable main stack becomes a `List VCH` whose HEAD is the TOP of the
  stack, so Python's `stack[-1]` is the head, `stack[-i]` is `stack.getD
  (i-1)`, `stack.append v` is `v :: stack`, and `stack.pop()` drops the head;
* exceptions become `Except` values: each raised `EvalScriptError` subclass
  is a constructor of `EvalErrKind`, and — mirroring `err_raiser`, which
  snapshots the execution state into the exception — the failure value
  carries the main stack as it stood when the exception was raised;
* external capabilities the module imports but does not implement
  (hash functions, `RawSignatureHash`, `CKey.verify`, transaction hashing)
  are fields of an `Env` parameter;
* code of the repository that `scripteval.py` imports but that is not part
  of the sources (`bitcoin/core/script.py`, `bitcoin/core/bignum.py`) is
  modelled from the specification, and each such definition is marked
  `Modelled from the spec`.

Loops are written with explicit fuel so that every definition is a plain
computable `def` that the kernel can evaluate on concrete inputs.
-/

namespace ScriptEval

/-- A stack value / byte string: one `Nat` per byte. -/
abbrev VCH := List Nat

/-! ### Constants (scripteval.py lines 33-37) -/

def nMaxNumSize : Nat := 4
def MAX_SCRIPT_SIZE : Nat := 10000
def MAX_SCRIPT_ELEMENT_SIZE : Nat := 520
def MAX_SCRIPT_OPCODES : Nat := 201
def MAX_STACK_ITEMS : Nat := 1000

/-! ### Opcode values.

Modelled from the spec: `bitcoin/core/script.py` (which defines the numeric
opcode constants that `scripteval.py` star-imports from
`bitcoin.core.script`) is not among the sources; the values are the standard flat numeric
codes the spec's Script Decoder and Dispatcher sections describe (push range
up to `OP_PUSHDATA4`, small-integer pushes `OP_1NEGATE` and `OP_1..OP_16`,
everything above `OP_16` counted against the opcode budget). -/

def OP_0 : Nat := 0x00
def OP_PUSHDATA1 : Nat := 0x4c
def OP_PUSHDATA2 : Nat := 0x4d
def OP_PUSHDATA4 : Nat := 0x4e
def OP_1NEGATE : Nat := 0x4f
def OP_1 : Nat := 0x51
def OP_16 : Nat := 0x60
def OP_NOP : Nat := 0x61
def OP_VER : Nat := 0x62
def OP_IF : Nat := 0x63
def OP_NOTIF : Nat := 0x64
def OP_VERIF : Nat := 0x65
def OP_VERNOTIF : Nat := 0x66
def OP_ELSE : Nat := 0x67
def OP_ENDIF : Nat := 0x68
def OP_VERIFY : Nat := 0x69
def OP_RETURN : Nat := 0x6a
def OP_TOALTSTACK : Nat := 0x6b
def OP_FROMALTSTACK : Nat := 0x6c
def OP_2DROP : Nat := 0x6d
def OP_2DUP : Nat := 0x6e
def OP_3DUP : Nat := 0x6f
def OP_2OVER : Nat := 0x70
def OP_2ROT : Nat := 0x71
def OP_2SWAP : Nat := 0x72
def OP_IFDUP : Nat := 0x73
def OP_DEPTH : Nat := 0x74
def OP_DROP : Nat := 0x75
def OP_DUP : Nat := 0x76
def OP_NIP : Nat := 0x77
def OP_OVER : Nat := 0x78
def OP_PICK : Nat := 0x79
def OP_ROLL : Nat := 0x7a
def OP_ROT : Nat := 0x7b
def OP_SWAP : Nat := 0x7c
def OP_TUCK : Nat := 0x7d
def OP_CAT : Nat := 0x7e
def OP_SUBSTR : Nat := 0x7f
def OP_LEFT : Nat := 0x80
def OP_RIGHT : Nat := 0x81
def OP_SIZE : Nat := 0x82
def OP_INVERT : Nat := 0x83
def OP_AND : Nat := 0x84
def OP_OR : Nat := 0x85
def OP_XOR : Nat := 0x86
def OP_EQUAL : Nat := 0x87
def OP_EQUALVERIFY : Nat := 0x88
def OP_1ADD : Nat := 0x8b
def OP_1SUB : Nat := 0x8c
def OP_2MUL : Nat := 0x8d
def OP_2DIV : Nat := 0x8e
def OP_NEGATE : Nat := 0x8f
def OP_ABS : Nat := 0x90
def OP_NOT : Nat := 0x91
def OP_0NOTEQUAL : Nat := 0x92
def OP_ADD : Nat := 0x93
def OP_SUB : Nat := 0x94
def OP_MUL : Nat := 0x95
def OP_DIV : Nat := 0x96
def OP_MOD : Nat := 0x97
def OP_LSHIFT : Nat := 0x98
def OP_RSHIFT : Nat := 0x99
def OP_BOOLAND : Nat := 0x9a
def OP_BOOLOR : Nat := 0x9b
def OP_NUMEQUAL : Nat := 0x9c
def OP_NUMEQUALVERIFY : Nat := 0x9d
def OP_NUMNOTEQUAL : Nat := 0x9e
def OP_LESSTHAN : Nat := 0x9f
def OP_GREATERTHAN : Nat := 0xa0
def OP_LESSTHANOREQUAL : Nat := 0xa1
def OP_GREATERTHANOREQUAL : Nat := 0xa2
def OP_MIN : Nat := 0xa3
def OP_MAX : Nat := 0xa4
def OP_WITHIN : Nat := 0xa5
def OP_RIPEMD160 : Nat := 0xa6
def OP_SHA1 : Nat := 0xa7
def OP_SHA256 : Nat := 0xa8
def OP_HASH160 : Nat := 0xa9
def OP_HASH256 : Nat := 0xaa
def OP_CODESEPARATOR : Nat := 0xab
def OP_CHECKSIG : Nat := 0xac
def OP_CHECKSIGVERIFY : Nat := 0xad
def OP_CHECKMULTISIG : Nat := 0xae
def OP_CHECKMULTISIGVERIFY : Nat := 0xaf
def OP_NOP1 : Nat := 0xb0
def OP_NOP10 : Nat := 0xb9

/-- scripteval.py lines 46-49: opcodes invalid even inside a non-executed
OP_IF branch. -/
def disabled_opcodes : List Nat :=
  [OP_VERIF, OP_VERNOTIF,
   OP_CAT, OP_SUBSTR, OP_LEFT, OP_RIGHT, OP_INVERT, OP_AND,
   OP_OR, OP_XOR, OP_2MUL, OP_2DIV, OP_MUL, OP_DIV, OP_MOD,
   OP_LSHIFT, OP_RSHIFT]

/-! ### Numeric codec.

Modelled from the spec (section 4.2): `bitcoin/core/bignum.py` (`bn2vch`,
`vch2bn`) is not among the sources.  `bn2vch` emits the minimal-length
little-endian magnitude with the high bit of the final byte indicating the
sign, omitting a byte entirely for zero; `vch2bn` is the inverse. -/

/-- Little-endian base-256 digits of a natural number (empty for zero).
The first argument is fuel; `natToLE` instantiates it so it never runs out. -/
def natToLEAux : Nat → Nat → List Nat
  | 0, _ => []
  | _ + 1, 0 => []
  | fuel + 1, n => n % 256 :: natToLEAux fuel (n / 256)

def natToLE (n : Nat) : List Nat := natToLEAux n n

/-- Value of a little-endian byte list. -/
def leBytesToNat (bs : List Nat) : Nat :=
  bs.foldr (fun b acc => b + 256 * acc) 0

/-- Modelled from the spec: `bignum.bn2vch`. -/
def bn2vch (n : Int) : VCH :=
  if n = 0 then []
  else
    let ds := natToLE n.natAbs
    let lastByte := ds.getLastD 0
    if 0x80 ≤ lastByte then
      ds ++ [if n < 0 then 0x80 else 0x00]
    else if n < 0 then
      ds.dropLast ++ [lastByte + 0x80]
    else
      ds

/-- Modelled from the spec: `bignum.vch2bn`. -/
def vch2bn (v : VCH) : Int :=
  match v with
  | [] => 0
  | _ =>
    let lastByte := v.getLastD 0
    let mag : Nat := leBytesToNat (v.dropLast ++ [lastByte % 0x80])
    if lastByte.testBit 7 then -(mag : Int) else (mag : Int)

/-- scripteval.py lines 106-114 (`_CastToBool`): empty and "negative zero"
encodings are false, everything else containing a nonzero byte is true. -/
def CastToBool : VCH → Bool
  | [] => false
  | b :: rest =>
    if b ≠ 0 then
      if rest = [] ∧ b = 0x80 then false else true
    else CastToBool rest

/-! ### Data model and environment -/

/-- Verification-flag markers (scripteval.py lines 39-42). -/
inductive ScriptVerifyFlag where
  | p2sh
  | strictenc
  | even_s
  | nocache
deriving DecidableEq, Repr

structure COutPoint where
  hash : VCH
  n : Int
deriving DecidableEq, Repr, Inhabited

structure CTxIn where
  prevout : COutPoint
  scriptSig : List Nat
deriving DecidableEq, Repr, Inhabited

structure CTxOut where
  scriptPubKey : List Nat
deriving DecidableEq, Repr, Inhabited

structure CTx where
  vin : List CTxIn
  vout : List CTxOut
deriving DecidableEq, Repr, Inhabited

/-- External collaborator capabilities (spec section 6): hashing, the legacy
signature hash, ECDSA verification and transaction hashing are consumed, not
implemented, by the evaluation engine. -/
structure Env where
  hash160 : VCH → VCH
  hash256 : VCH → VCH
  ripemd160 : VCH → VCH
  sha1 : VCH → VCH
  sha256 : VCH → VCH
  /-- `RawSignatureHash(script, txTo, inIdx, hashtype)`; the error code the
  Python pair returns is ignored by `_CheckSig`. -/
  rawSignatureHash : List Nat → CTx → Int → Nat → VCH
  /-- `CKey.verify(h, sig)` for a key built from `pubkey`. -/
  keyVerify : VCH → VCH → VCH → Bool
  /-- `Hash(tx.serialize())` used by `VerifySignature`. -/
  txHash : CTx → VCH

/-! ### Error taxonomy -/

/-- The `EvalScriptError` hierarchy of scripteval.py (lines 51-98), plus the
two Python-level exceptions the module can actually raise by accident.

`typeErrorBadSuper`: `ArgumentsInvalidError.__init__` (line 89) calls
`super(MissingOpArgumentsError, self).__init__(...)`, but an
`ArgumentsInvalidError` instance is not an instance of
`MissingOpArgumentsError`, so constructing the exception raises
`TypeError: super(type, obj): obj must be an instance or subtype of type`.
Every `err_raiser(ArgumentsInvalidError, ...)` call site therefore surfaces a
`TypeError`, not an `ArgumentsInvalidError`; this constructor records that.

`assertionError` models a failing Python `assert` statement. -/
inductive EvalErrKind where
  | scriptError (msg : String)
  | missingOpArguments (opcode : Nat) (needed : Nat)
  | typeErrorBadSuper (opcode : Nat) (msg : String)
  | verifyOpFailed (opcode : Nat)
  | assertionError (msg : String)
  | scriptInvalid (msg : String)
deriving DecidableEq, Repr

/-- A raised exception together with the main stack at the moment of the
raise (`err_raiser` snapshots the execution state into the exception). -/
structure EvalFailure where
  kind : EvalErrKind
  stack : List VCH
deriving DecidableEq, Repr

/-- scripteval.py lines 100-104 (`_CastToBigNum`): decode, then fail on
values longer than `nMaxNumSize` bytes.  `curStack` is the evaluator's main
stack at the call, captured into the error by `err_raiser`. -/
def castToBigNum (s : VCH) (curStack : List VCH) : Except EvalFailure Int :=
  let v := vch2bn s
  if s.length > nMaxNumSize then
    .error ⟨.scriptError "CastToBigNum() : overflow", curStack⟩
  else
    .ok v

/-! ### FindAndDelete -/

/-- Modelled from the spec: the canonical push-encoding of a data element,
as produced by `CScript([data])` (`bitcoin/core/script.py` is not among the
sources).  Lengths up to 0x4b use the direct length byte; longer data uses
`OP_PUSHDATA1/2/4` with a little-endian length. -/
def pushSerialize (d : List Nat) : List Nat :=
  if d.length < OP_PUSHDATA1 then d.length :: d
  else if d.length ≤ 0xff then OP_PUSHDATA1 :: d.length :: d
  else if d.length ≤ 0xffff then
    OP_PUSHDATA2 :: d.length % 256 :: d.length / 256 :: d
  else
    OP_PUSHDATA4 :: d.length % 256 :: d.length / 256 % 256 ::
      d.length / 65536 % 256 :: d.length / 16777216 % 256 :: d

/-- Python `bytes.replace(pat, b'')`: delete every non-overlapping occurrence
of `pat`, scanning left to right.  The first argument is fuel, instantiated
with the length of the subject so it never runs out. -/
def replaceAllAux (pat : List Nat) : Nat → List Nat → List Nat
  | _, [] => []
  | 0, s => s
  | fuel + 1, b :: s =>
    if pat.isPrefixOf (b :: s) then
      replaceAllAux pat fuel ((b :: s).drop pat.length)
    else
      b :: replaceAllAux pat fuel s

/-- Python `s.replace(pat, b'')` (an empty pattern leaves `s` unchanged). -/
def replaceAll (pat s : List Nat) : List Nat :=
  if pat = [] then s else replaceAllAux pat s.length s

/-- scripteval.py lines 117-124 (`_FindAndDelete`): binary-level removal of
the canonical push-encoding of `sig` from the raw script bytes. -/
def FindAndDelete (script : List Nat) (sig : VCH) : List Nat :=
  replaceAll (pushSerialize sig) script

/-! ### Signature checking -/

/-- scripteval.py lines 127-145 (`_CheckSig`): empty signatures are false
(not a hard failure); otherwise split off the trailing hash-type byte,
compute the legacy signature hash and delegate to ECDSA verification. -/
def CheckSig (env : Env) (sig pubkey : VCH) (script : List Nat)
    (txTo : CTx) (inIdx : Int) : Bool :=
  if sig.length = 0 then false
  else
    let hashtype := sig.getLastD 0
    let sig' := sig.dropLast
    let h := env.rawSignatureHash script txTo inIdx hashtype
    env.keyVerify pubkey h sig'

/-- The matching loop of `_CheckMultiSig` (scripteval.py lines 180-198),
with the loop state made explicit: `isig`/`ikey` are the 1-based from-the-top
stack indices of the current signature and key (`stack[-isig]` is
`stack.getD (isig - 1)`), and `sigsCount`/`keysCount` the remaining counts.
Each iteration advances the key pointer by one, and the signature pointer
only on a successful `_CheckSig`; when the remaining signatures outnumber the
remaining keys the match fails — for `OP_CHECKMULTISIGVERIFY` by raising
`VerifyOpFailedError` before the stack is touched, for `OP_CHECKMULTISIG` by
reporting `false`.  Recursion is on `keysCount`, which every iteration
decrements. -/
def msLoop (cs : VCH → VCH → Bool) (opcode : Nat) (stack : List VCH) :
    Nat → Nat → Nat → Nat → Except EvalFailure Bool
  | _, _, 0, _ => .ok true
  | isig, ikey, sigsCount + 1, keysCount =>
    let sig := stack.getD (isig - 1) []
    let pubkey := stack.getD (ikey - 1) []
    let hit := cs sig pubkey
    let isig' := if hit then isig + 1 else isig
    let sigs' := if hit then sigsCount else sigsCount + 1
    match keysCount with
    | 0 =>
      -- keys_count goes to -1, so sigs_count > keys_count holds.
      if opcode = OP_CHECKMULTISIGVERIFY then
        .error ⟨.verifyOpFailed opcode, stack⟩
      else .ok false
    | k + 1 =>
      if sigs' > k then
        if opcode = OP_CHECKMULTISIGVERIFY then
          .error ⟨.verifyOpFailed opcode, stack⟩
        else .ok false
      else msLoop cs opcode stack isig' (ikey + 1) sigs' k

/-- scripteval.py lines 148-209 (`_CheckMultiSig`).  Reads key-count, keys,
signature-count and signatures from the stack (with the trailing extra legacy
pad element demanded by the final length check), deletes every signature's
push-encoding from the script, runs the greedy matching loop, pops all
`i = keysCount + sigsCount + 3` consumed entries and pushes the boolean
result.  The out-of-range count errors raise `ArgumentsInvalidError`, whose
constructor actually raises `TypeError` (see `EvalErrKind.typeErrorBadSuper`);
the final `assert opcode == OP_CHECKMULTISIG` raises `AssertionError` on the
successful `OP_CHECKMULTISIGVERIFY` path. -/
def CheckMultiSig (env : Env) (opcode : Nat) (script : List Nat)
    (stack : List VCH) (txTo : CTx) (inIdx : Int) :
    Except EvalFailure (List VCH) :=
  if stack.length < 1 then
    .error ⟨.missingOpArguments opcode 1, stack⟩
  else
    match castToBigNum (stack.getD 0 []) stack with
    | .error e => .error e
    | .ok keysCountI =>
      if keysCountI < 0 ∨ keysCountI > 20 then
        .error ⟨.typeErrorBadSuper opcode "keys count invalid", stack⟩
      else
        let kc := keysCountI.toNat
        let ikey := 2
        let i1 := 2 + kc
        if stack.length < i1 then
          .error ⟨.typeErrorBadSuper opcode "not enough keys on stack", stack⟩
        else
          match castToBigNum (stack.getD (i1 - 1) []) stack with
          | .error e => .error e
          | .ok sigsCountI =>
            if sigsCountI < 0 ∨ sigsCountI > keysCountI then
              .error ⟨.typeErrorBadSuper opcode "sigs count invalid", stack⟩
            else
              let sc := sigsCountI.toNat
              let isig := i1 + 1
              let i2 := i1 + 1 + sc
              if stack.length < i2 then
                .error ⟨.typeErrorBadSuper opcode "not enough sigs on stack", stack⟩
              else
                let script :=
                  (List.range sc).foldl
                    (fun scr k => FindAndDelete scr (stack.getD (isig - 1 + k) []))
                    script
                let cs := fun sig pubkey => CheckSig env sig pubkey script txTo inIdx
                match msLoop cs opcode stack isig ikey sc kc with
                | .error e => .error e
                | .ok success =>
                  let stack' := stack.drop i2
                  if opcode = OP_CHECKMULTISIG then
                    .ok ((if success then [0x01] else [0x00]) :: stack')
                  else
                    .error ⟨.assertionError "opcode == OP_CHECKMULTISIG", stack'⟩

/-! ### Unary and binary arithmetic opcodes -/

/-- scripteval.py lines 213-220. -/
def ISA_UNOP : List Nat :=
  [OP_1ADD, OP_1SUB, OP_NEGATE, OP_ABS, OP_NOT, OP_0NOTEQUAL]

/-- scripteval.py lines 254-268. -/
def ISA_BINOP : List Nat :=
  [OP_ADD, OP_SUB, OP_BOOLAND, OP_BOOLOR, OP_NUMEQUAL, OP_NUMEQUALVERIFY,
   OP_NUMNOTEQUAL, OP_LESSTHAN, OP_GREATERTHAN, OP_LESSTHANOREQUAL,
   OP_GREATERTHANOREQUAL, OP_MIN, OP_MAX]

/-- scripteval.py lines 222-250 (`_UnaryOp`): the operand is decoded while
still on the stack (so an overflow error reports the full stack), then
popped and the recoded result pushed. -/
def unaryOp (opcode : Nat) (stack : List VCH) : Except EvalFailure (List VCH) :=
  match stack with
  | [] => .error ⟨.missingOpArguments opcode 1, stack⟩
  | top :: rest =>
    match castToBigNum top stack with
    | .error e => .error e
    | .ok bn =>
      let bn' : Except EvalFailure Int :=
        if opcode = OP_1ADD then .ok (bn + 1)
        else if opcode = OP_1SUB then .ok (bn - 1)
        else if opcode = OP_NEGATE then .ok (-bn)
        else if opcode = OP_ABS then .ok (if bn < 0 then -bn else bn)
        else if opcode = OP_NOT then .ok (if bn = 0 then 1 else 0)
        else if opcode = OP_0NOTEQUAL then .ok (if bn ≠ 0 then 1 else 0)
        else .error ⟨.assertionError "unknown unary opcode", rest⟩
      match bn' with
      | .error e => .error e
      | .ok v => .ok (bn2vch v :: rest)

/-- scripteval.py lines 270-337 (`_BinOp`).  Both operands are decoded
before anything is popped, so that `OP_NUMEQUALVERIFY` can raise
`VerifyOpFailedError` with the stack exactly as it stood before the opcode;
on equality it pops both operands and pushes nothing, every other opcode
pops both and pushes the recoded result. -/
def binOp (opcode : Nat) (stack : List VCH) : Except EvalFailure (List VCH) :=
  if stack.length < 2 then
    .error ⟨.missingOpArguments opcode 2, stack⟩
  else
    match stack with
    | bv2 :: bv1 :: rest =>
      match castToBigNum bv2 stack with
      | .error e => .error e
      | .ok bn2 =>
        match castToBigNum bv1 stack with
        | .error e => .error e
        | .ok bn1 =>
          if opcode = OP_NUMEQUALVERIFY then
            if bn1 = bn2 then .ok rest
            else .error ⟨.verifyOpFailed opcode, stack⟩
          else
            let bn : Except EvalFailure Int :=
              if opcode = OP_ADD then .ok (bn1 + bn2)
              else if opcode = OP_SUB then .ok (bn1 - bn2)
              else if opcode = OP_BOOLAND then .ok (if bn1 ≠ 0 ∧ bn2 ≠ 0 then 1 else 0)
              else if opcode = OP_BOOLOR then .ok (if bn1 ≠ 0 ∨ bn2 ≠ 0 then 1 else 0)
              else if opcode = OP_NUMEQUAL then .ok (if bn1 = bn2 then 1 else 0)
              else if opcode = OP_NUMNOTEQUAL then .ok (if bn1 ≠ bn2 then 1 else 0)
              else if opcode = OP_LESSTHAN then .ok (if bn1 < bn2 then 1 else 0)
              else if opcode = OP_GREATERTHAN then .ok (if bn1 > bn2 then 1 else 0)
              else if opcode = OP_LESSTHANOREQUAL then .ok (if bn1 ≤ bn2 then 1 else 0)
              else if opcode = OP_GREATERTHANOREQUAL then .ok (if bn1 ≥ bn2 then 1 else 0)
              else if opcode = OP_MIN then .ok (if bn1 < bn2 then bn1 else bn2)
              else if opcode = OP_MAX then .ok (if bn1 > bn2 then bn1 else bn2)
              else .error ⟨.assertionError "unknown binop opcode", stack⟩
            match bn with
            | .error e => .error e
            | .ok v => .ok (bn2vch v :: rest)
    | _ => .error ⟨.missingOpArguments opcode 2, stack⟩

/-! ### Execution context and the dispatcher -/

/-- scripteval.py lines 340-344 (`_CheckExec`): conjunction of the
conditional-flag stack. -/
def checkExec (vfExec : List Bool) : Bool := vfExec.all id

/-- The per-run mutable state the loop body of `_EvalScript` manipulates,
except for the non-push opcode counter (which only the loop head touches and
which `ExecState` carries separately). -/
structure ExecFrame where
  stack : List VCH
  altstack : List VCH
  vfExec : List Bool
  pbegincodehash : Nat
deriving DecidableEq, Repr

/-- Full execution context of one `_EvalScript` run. -/
structure ExecState where
  frame : ExecFrame
  nOpCount : Nat
deriving DecidableEq, Repr

/-! ### Script decoder.

Modelled from the spec (section 4.1): `CScript.raw_iter` lives in
`bitcoin/core/script.py`, which is not among the sources.  Each step reads
one opcode byte; an opcode in the push range reads its declared length
(direct for opcodes up to 0x4b, else a 1-, 2- or 4-byte little-endian
length field) and then that many data bytes, failing with a decode error —
distinguishable from all execution errors — when the declared length runs
past the end of the script. -/
def rawNext (script : List Nat) (pc : Nat) :
    Except String (Option (Nat × List Nat × Nat × Nat)) :=
  if script.length ≤ pc then .ok none
  else
    let sopPc := pc
    let opcode := script.getD pc 0
    let pc1 := pc + 1
    if OP_PUSHDATA4 < opcode then .ok (some (opcode, [], sopPc, pc1))
    else
      let lenBytes : Nat :=
        if opcode < OP_PUSHDATA1 then 0
        else if opcode = OP_PUSHDATA1 then 1
        else if opcode = OP_PUSHDATA2 then 2
        else 4
      if script.length < pc1 + lenBytes then
        .error "PUSHDATA: missing length field"
      else
        let datasize :=
          if opcode < OP_PUSHDATA1 then opcode
          else leBytesToNat ((script.drop pc1).take lenBytes)
        let pcData := pc1 + lenBytes
        if script.length < pcData + datasize then
          .error "PUSHDATA: data runs past end of script"
        else
          .ok (some (opcode, (script.drop pcData).take datasize, sopPc, pcData + datasize))

/-- The body of the `for (sop, sop_data, sop_pc) in scriptIn.raw_iter()`
loop of `_EvalScript` (scripteval.py lines 406-668), from the small-integer
push branch to the final `unsupported opcode` arm.  The branch conditions
are transcribed verbatim; in particular the three conditions of the form
`fExec and sop == A or sop == B` (lines 463, 467, 586) keep Python's
operator precedence `(fExec and sop == A) or sop == B`, so `OP_ROLL`,
`OP_CHECKSIGVERIFY` and `OP_CHECKMULTISIGVERIFY` are dispatched even when
`fExec` is false. -/
def evalStepRest (env : Env) (txTo : CTx) (inIdx : Int) (scriptIn : List Nat)
    (fr : ExecFrame) (fExecB : Bool) (sop : Nat) (sopPc : Nat) :
    Except EvalFailure ExecFrame :=
  if fExecB ∧ (sop = OP_1NEGATE ∨ (OP_1 ≤ sop ∧ sop ≤ OP_16)) then
    let v : Int := (sop : Int) - (OP_1 - 1 : Int)
    .ok { fr with stack := bn2vch v :: fr.stack }
  else if fExecB ∧ sop ∈ ISA_BINOP then
    match binOp sop fr.stack with
    | .error e => .error e
    | .ok stack' => .ok { fr with stack := stack' }
  else if fExecB ∧ sop ∈ ISA_UNOP then
    match unaryOp sop fr.stack with
    | .error e => .error e
    | .ok stack' => .ok { fr with stack := stack' }
  else if fExecB ∧ sop = OP_2DROP then
    match fr.stack with
    | _ :: _ :: rest => .ok { fr with stack := rest }
    | _ => .error ⟨.missingOpArguments sop 2, fr.stack⟩
  else if fExecB ∧ sop = OP_2DUP then
    match fr.stack with
    | v2 :: v1 :: rest => .ok { fr with stack := v2 :: v1 :: v2 :: v1 :: rest }
    | _ => .error ⟨.missingOpArguments sop 2, fr.stack⟩
  else if fExecB ∧ sop = OP_2OVER then
    match fr.stack with
    | y :: x :: v2 :: v1 :: rest =>
      .ok { fr with stack := v2 :: v1 :: y :: x :: v2 :: v1 :: rest }
    | _ => .error ⟨.missingOpArguments sop 4, fr.stack⟩
  else if fExecB ∧ sop = OP_2ROT then
    match fr.stack with
    | a :: b :: c :: d :: e :: f :: rest =>
      .ok { fr with stack := e :: f :: a :: b :: c :: d :: rest }
    | _ => .error ⟨.missingOpArguments sop 6, fr.stack⟩
  else if fExecB ∧ sop = OP_2SWAP then
    match fr.stack with
    | a :: b :: c :: d :: rest => .ok { fr with stack := c :: d :: a :: b :: rest }
    | _ => .error ⟨.missingOpArguments sop 4, fr.stack⟩
  else if fExecB ∧ sop = OP_3DUP then
    match fr.stack with
    | v3 :: v2 :: v1 :: rest =>
      .ok { fr with stack := v3 :: v2 :: v1 :: v3 :: v2 :: v1 :: rest }
    | _ => .error ⟨.missingOpArguments sop 3, fr.stack⟩
  else if (fExecB ∧ sop = OP_CHECKMULTISIG) ∨ sop = OP_CHECKMULTISIGVERIFY then
    let tmpScript := scriptIn.drop fr.pbegincodehash
    match CheckMultiSig env sop tmpScript fr.stack txTo inIdx with
    | .error e => .error e
    | .ok stack' => .ok { fr with stack := stack' }
  else if (fExecB ∧ sop = OP_CHECKSIG) ∨ sop = OP_CHECKSIGVERIFY then
    match fr.stack with
    | vchPubKey :: vchSig :: rest =>
      let tmpScript := FindAndDelete (scriptIn.drop fr.pbegincodehash) vchSig
      let ok := CheckSig env vchSig vchPubKey tmpScript txTo inIdx
      if ok = false ∧ sop = OP_CHECKSIGVERIFY then
        .error ⟨.verifyOpFailed sop, fr.stack⟩
      else if ok then
        if sop ≠ OP_CHECKSIGVERIFY then .ok { fr with stack := [0x01] :: rest }
        else .ok { fr with stack := rest }
      else
        .ok { fr with stack := [0x00] :: rest }
    | _ => .error ⟨.missingOpArguments sop 2, fr.stack⟩
  else if fExecB ∧ sop = OP_CODESEPARATOR then
    .ok { fr with pbegincodehash := sopPc }
  else if fExecB ∧ sop = OP_DEPTH then
    .ok { fr with stack := bn2vch (fr.stack.length : Int) :: fr.stack }
  else if fExecB ∧ sop = OP_DROP then
    match fr.stack with
    | _ :: rest => .ok { fr with stack := rest }
    | _ => .error ⟨.missingOpArguments sop 1, fr.stack⟩
  else if fExecB ∧ sop = OP_DUP then
    match fr.stack with
    | v :: rest => .ok { fr with stack := v :: v :: rest }
    | _ => .error ⟨.missingOpArguments sop 1, fr.stack⟩
  else if sop = OP_ELSE then
    match fr.vfExec with
    | [] => .error ⟨.scriptError "ELSE found without prior IF", fr.stack⟩
    | b :: bs => .ok { fr with vfExec := (!b) :: bs }
  else if sop = OP_ENDIF then
    match fr.vfExec with
    | [] => .error ⟨.scriptError "ENDIF found without prior IF", fr.stack⟩
    | _ :: bs => .ok { fr with vfExec := bs }
  else if fExecB ∧ sop = OP_EQUAL then
    match fr.stack with
    | v1 :: v2 :: rest =>
      .ok { fr with stack := (if v1 = v2 then [0x01] else [0x00]) :: rest }
    | _ => .error ⟨.missingOpArguments sop 2, fr.stack⟩
  else if fExecB ∧ sop = OP_EQUALVERIFY then
    match fr.stack with
    | v1 :: v2 :: rest =>
      if v1 = v2 then .ok { fr with stack := rest }
      else .error ⟨.verifyOpFailed sop, fr.stack⟩
    | _ => .error ⟨.missingOpArguments sop 2, fr.stack⟩
  else if fExecB ∧ sop = OP_FROMALTSTACK then
    match fr.altstack with
    | [] => .error ⟨.missingOpArguments sop 1, fr.stack⟩
    | v :: alts => .ok { fr with stack := v :: fr.stack, altstack := alts }
  else if fExecB ∧ sop = OP_HASH160 then
    match fr.stack with
    | v :: rest => .ok { fr with stack := env.hash160 v :: rest }
    | _ => .error ⟨.missingOpArguments sop 1, fr.stack⟩
  else if fExecB ∧ sop = OP_HASH256 then
    match fr.stack with
    | v :: rest => .ok { fr with stack := env.hash256 v :: rest }
    | _ => .error ⟨.missingOpArguments sop 1, fr.stack⟩
  else if sop = OP_IF ∨ sop = OP_NOTIF then
    if fExecB then
      match fr.stack with
      | vch :: rest =>
        let val := CastToBool vch
        let val := if sop = OP_NOTIF then !val else val
        .ok { fr with stack := rest, vfExec := val :: fr.vfExec }
      | _ => .error ⟨.missingOpArguments sop 1, fr.stack⟩
    else
      .ok { fr with vfExec := false :: fr.vfExec }
  else if fExecB ∧ sop = OP_IFDUP then
    match fr.stack with
    | vch :: rest =>
      if CastToBool vch then .ok { fr with stack := vch :: vch :: rest }
      else .ok fr
    | _ => .error ⟨.missingOpArguments sop 1, fr.stack⟩
  else if fExecB ∧ sop = OP_NIP then
    match fr.stack with
    | a :: _ :: rest => .ok { fr with stack := a :: rest }
    | _ => .error ⟨.missingOpArguments sop 2, fr.stack⟩
  else if (fExecB ∧ sop = OP_NOP) ∨ (OP_NOP1 ≤ sop ∧ sop ≤ OP_NOP10) then
    .ok fr
  else if fExecB ∧ sop = OP_OVER then
    match fr.stack with
    | a :: b :: rest => .ok { fr with stack := b :: a :: b :: rest }
    | _ => .error ⟨.missingOpArguments sop 2, fr.stack⟩
  else if (fExecB ∧ sop = OP_PICK) ∨ sop = OP_ROLL then
    if fr.stack.length < 2 then
      .error ⟨.missingOpArguments sop 2, fr.stack⟩
    else
      match fr.stack with
      | top :: rest =>
        -- stack.pop() happens before _CastToBigNum, so an overflow error
        -- reports the already-popped stack.
        match castToBigNum top rest with
        | .error e => .error e
        | .ok n =>
          if n < 0 ∨ (rest.length : Int) ≤ n then
            .error ⟨.scriptError "PICK/ROLL argument out of bounds", rest⟩
          else
            let i := n.toNat
            let vch := rest.getD i []
            let rest' := if sop = OP_ROLL then rest.eraseIdx i else rest
            .ok { fr with stack := vch :: rest' }
      | _ => .error ⟨.missingOpArguments sop 2, fr.stack⟩
  else if fExecB ∧ sop = OP_RETURN then
    .error ⟨.scriptError "OP_RETURN called", fr.stack⟩
  else if fExecB ∧ sop = OP_RIPEMD160 then
    match fr.stack with
    | v :: rest => .ok { fr with stack := env.ripemd160 v :: rest }
    | _ => .error ⟨.missingOpArguments sop 1, fr.stack⟩
  else if fExecB ∧ sop = OP_ROT then
    match fr.stack with
    | a :: b :: c :: rest => .ok { fr with stack := c :: a :: b :: rest }
    | _ => .error ⟨.missingOpArguments sop 3, fr.stack⟩
  else if fExecB ∧ sop = OP_SIZE then
    match fr.stack with
    | v :: rest => .ok { fr with stack := bn2vch (v.length : Int) :: v :: rest }
    | _ => .error ⟨.missingOpArguments sop 1, fr.stack⟩
  else if fExecB ∧ sop = OP_SHA1 then
    match fr.stack with
    | v :: rest => .ok { fr with stack := env.sha1 v :: rest }
    | _ => .error ⟨.missingOpArguments sop 1, fr.stack⟩
  else if fExecB ∧ sop = OP_SHA256 then
    match fr.stack with
    | v :: rest => .ok { fr with stack := env.sha256 v :: rest }
    | _ => .error ⟨.missingOpArguments sop 1, fr.stack⟩
  else if fExecB ∧ sop = OP_SWAP then
    match fr.stack with
    | a :: b :: rest => .ok { fr with stack := b :: a :: rest }
    | _ => .error ⟨.missingOpArguments sop 2, fr.stack⟩
  else if fExecB ∧ sop = OP_TOALTSTACK then
    match fr.stack with
    | v :: rest => .ok { fr with stack := rest, altstack := v :: fr.altstack }
    | _ => .error ⟨.missingOpArguments sop 1, fr.stack⟩
  else if fExecB ∧ sop = OP_TUCK then
    match fr.stack with
    | a :: b :: rest => .ok { fr with stack := a :: b :: a :: rest }
    | _ => .error ⟨.missingOpArguments sop 2, fr.stack⟩
  else if fExecB ∧ sop = OP_VERIFY then
    match fr.stack with
    | v :: rest =>
      if CastToBool v then .ok { fr with stack := rest }
      else .error ⟨.verifyOpFailed sop, fr.stack⟩
    | _ => .error ⟨.missingOpArguments sop 1, fr.stack⟩
  else if fExecB ∧ sop = OP_WITHIN then
    match fr.stack with
    | t1 :: t2 :: t3 :: rest =>
      match castToBigNum t1 fr.stack with
      | .error e => .error e
      | .ok bn3 =>
        match castToBigNum t2 fr.stack with
        | .error e => .error e
        | .ok bn2 =>
          match castToBigNum t3 fr.stack with
          | .error e => .error e
          | .ok bn1 =>
            let v := bn2 ≤ bn1 ∧ bn1 < bn3
            .ok { fr with stack := (if v then [0x01] else [0x00]) :: rest }
    | _ => .error ⟨.missingOpArguments sop 3, fr.stack⟩
  else if fExecB then
    .error ⟨.scriptError "unsupported opcode", fr.stack⟩
  else
    .ok fr

/-- One full iteration of the `_EvalScript` loop body minus the trailing
stack-size check (scripteval.py lines 365-668): disabled-opcode check,
opcode-budget accounting, push handling, then `evalStepRest`.  The returned
`Bool` is true exactly when the Python body executed `continue` (the
executed-push branch, line 404), which skips the size check. -/
def evalStepBody (env : Env) (txTo : CTx) (inIdx : Int) (scriptIn : List Nat)
    (st : ExecState) (sop : Nat) (sopData : List Nat) (sopPc : Nat) :
    Except EvalFailure (ExecState × Bool) :=
  let fExecB := checkExec st.frame.vfExec
  if sop ∈ disabled_opcodes then
    .error ⟨.scriptError "opcode is disabled", st.frame.stack⟩
  else
    let nOp := if OP_16 < sop then st.nOpCount + 1 else st.nOpCount
    if OP_16 < sop ∧ MAX_SCRIPT_OPCODES < nOp then
      .error ⟨.scriptError "max opcode count exceeded", st.frame.stack⟩
    else if sop ≤ OP_PUSHDATA4 then
      if MAX_SCRIPT_ELEMENT_SIZE < sopData.length then
        .error ⟨.scriptError "PUSHDATA length beyond maximum", st.frame.stack⟩
      else if fExecB then
        .ok (⟨{ st.frame with stack := sopData :: st.frame.stack }, nOp⟩, true)
      else
        .ok (⟨st.frame, nOp⟩, false)
    else
      match evalStepRest env txTo inIdx scriptIn st.frame fExecB sop sopPc with
      | .error e => .error e
      | .ok fr' => .ok (⟨fr', nOp⟩, false)

/-- One full iteration of the `_EvalScript` loop: the body followed by the
combined stack-size re-check (scripteval.py lines 670-672), which the
`continue` of the executed-push branch skips. -/
def evalStep (env : Env) (txTo : CTx) (inIdx : Int) (scriptIn : List Nat)
    (st : ExecState) (sop : Nat) (sopData : List Nat) (sopPc : Nat) :
    Except EvalFailure ExecState :=
  match evalStepBody env txTo inIdx scriptIn st sop sopData sopPc with
  | .error e => .error e
  | .ok (st', skip) =>
    if skip then .ok st'
    else if MAX_STACK_ITEMS < st'.frame.stack.length + st'.frame.altstack.length then
      .error ⟨.scriptError "max stack items limit reached", st'.frame.stack⟩
    else .ok st'

/-- The `for`-loop of `_EvalScript` over the lazily decoded instruction
stream, followed by the unterminated-IF check (scripteval.py lines 364-681).
A decode failure is a `CScriptInvalidError`, which propagates out of
`_EvalScript` as-is (the `scriptInvalid` kind).  `fuel` is instantiated with
`script.length + 1`, which bounds the number of iterations since every
decoded instruction consumes at least one byte. -/
def evalIter (env : Env) (txTo : CTx) (inIdx : Int) (scriptIn : List Nat) :
    Nat → ExecState → Nat → Except EvalFailure ExecState
  | 0, st, _ => .error ⟨.scriptError "fuel exhausted", st.frame.stack⟩
  | fuel + 1, st, pc =>
    match rawNext scriptIn pc with
    | .error msg => .error ⟨.scriptInvalid msg, st.frame.stack⟩
    | .ok none =>
      if st.frame.vfExec.isEmpty then .ok st
      else .error ⟨.scriptError "Unterminated IF-ELSE block", st.frame.stack⟩
    | .ok (some (sop, sopData, sopPc, pc')) =>
      match evalStep env txTo inIdx scriptIn st sop sopData sopPc with
      | .error e => .error e
      | .ok st' => evalIter env txTo inIdx scriptIn fuel st' pc'

/-- scripteval.py lines 347-681 (`_EvalScript`): size precheck, then the
instruction loop starting from a fresh context over the initial stack.
Returns the final main stack (the Python function mutates `stack` in place;
the altstack is local and discarded). -/
def EvalScriptRaw (env : Env) (stack0 : List VCH) (scriptIn : List Nat)
    (txTo : CTx) (inIdx : Int) (flags : List ScriptVerifyFlag) :
    Except EvalFailure (List VCH) :=
  if MAX_SCRIPT_SIZE < scriptIn.length then
    .error ⟨.scriptError "script too large", stack0⟩
  else
    match evalIter env txTo inIdx scriptIn (scriptIn.length + 1)
        ⟨⟨stack0, [], [], 0⟩, 0⟩ 0 with
    | .error e => .error e
    | .ok st => .ok st.frame.stack

/-- scripteval.py lines 684-702 (`EvalScript`): wraps `_EvalScript`,
re-raising a `CScriptInvalidError` from the decoder as an
`EvalScriptError`. -/
def EvalScript (env : Env) (stack0 : List VCH) (scriptIn : List Nat)
    (txTo : CTx) (inIdx : Int) (flags : List ScriptVerifyFlag) :
    Except EvalFailure (List VCH) :=
  match EvalScriptRaw env stack0 scriptIn txTo inIdx flags with
  | .error f =>
    match f.kind with
    | .scriptInvalid msg => .error ⟨.scriptError msg, f.stack⟩
    | _ => .error f
  | .ok s => .ok s

/-! ### Orchestrator and input verifier -/

/-- Failures of `VerifyScript` / `VerifySignature` (the `VerifyScriptError`
and `VerifySignatureError` classes), alongside propagated evaluation
failures and the `assert len(stackCopy)` statement. -/
inductive ValidationErr where
  | evalFailed (f : EvalFailure)
  | verifyScriptFailed (msg : String)
  | assertionFailed (msg : String)
  | verifySignatureFailed (msg : String)
deriving DecidableEq, Repr

/-- Modelled from the spec: `CScript.is_p2sh` — the canonical hash template
`HASH160 <20-byte push> EQUAL`, 23 bytes total. -/
def is_p2sh (script : List Nat) : Bool :=
  script.length = 23 ∧ script.getD 0 0 = OP_HASH160 ∧
    script.getD 1 0 = 0x14 ∧ script.getD 22 0 = OP_EQUAL

/-- Modelled from the spec: `CScript.is_push_only` — every decoded opcode is
a push operation (numeric value at most `OP_16`); an undecodable script is
not push-only.  Fuel as in `evalIter`. -/
def isPushOnlyAux (script : List Nat) : Nat → Nat → Bool
  | 0, _ => false
  | fuel + 1, pc =>
    match rawNext script pc with
    | .error _ => false
    | .ok none => true
    | .ok (some (sop, _, _, pc')) =>
      if sop ≤ OP_16 then isPushOnlyAux script fuel pc' else false

def is_push_only (script : List Nat) : Bool :=
  isPushOnlyAux script (script.length + 1) 0

/-- scripteval.py lines 707-745 (`VerifyScript`): run the claimant script on
a fresh stack, snapshot it when the P2SH flag is set, continue with the
challenge script on the same stack, fail on an empty or boolean-false
result, then apply the P2SH redemption rule when the flag is set and the
challenge script matches the hash template. -/
def VerifyScript (env : Env) (scriptSig scriptPubKey : List Nat) (txTo : CTx)
    (inIdx : Int) (flags : List ScriptVerifyFlag) : Except ValidationErr Unit :=
  match EvalScript env [] scriptSig txTo inIdx flags with
  | .error f => .error (.evalFailed f)
  | .ok stack =>
    -- `stackCopy = list(stack)`, taken only when the P2SH flag is set and
    -- consulted only under the same condition below.
    let stackCopy := stack
    match EvalScript env stack scriptPubKey txTo inIdx flags with
    | .error f => .error (.evalFailed f)
    | .ok stack2 =>
      if stack2.length = 0 then
        .error (.verifyScriptFailed "scriptPubKey left an empty stack")
      else if CastToBool (stack2.getD 0 []) = false then
        .error (.verifyScriptFailed "scriptPubKey returned false")
      else if ScriptVerifyFlag.p2sh ∈ flags ∧ is_p2sh scriptPubKey then
        if is_push_only scriptSig = false then
          .error (.verifyScriptFailed "P2SH scriptSig not is_push_only")
        else
          match stackCopy with
          | [] => .error (.assertionFailed "len(stackCopy)")
          | pubKey2 :: remaining =>
            match EvalScript env remaining pubKey2 txTo inIdx flags with
            | .error f => .error (.evalFailed f)
            | .ok st =>
              if st.length = 0 then
                .error (.verifyScriptFailed "P2SH inner scriptPubKey left an empty stack")
              else if CastToBool (st.getD 0 []) = false then
                .error (.verifyScriptFailed "P2SH inner scriptPubKey returned false")
              else .ok ()
      else .ok ()

/-- Stated from the spec's words, for comparison with `VerifyScript`: the
plain two-script orchestration with no P2SH redemption rule at all. -/
def verifyScriptNoP2SH (env : Env) (scriptSig scriptPubKey : List Nat)
    (txTo : CTx) (inIdx : Int) (flags : List ScriptVerifyFlag) :
    Except ValidationErr Unit :=
  match EvalScript env [] scriptSig txTo inIdx flags with
  | .error f => .error (.evalFailed f)
  | .ok stack =>
    match EvalScript env stack scriptPubKey txTo inIdx flags with
    | .error f => .error (.evalFailed f)
    | .ok stack2 =>
      if stack2.length = 0 then
        .error (.verifyScriptFailed "scriptPubKey left an empty stack")
      else if CastToBool (stack2.getD 0 []) = false then
        .error (.verifyScriptFailed "scriptPubKey returned false")
      else .ok ()

/-- scripteval.py lines 751-772 (`VerifySignature`): linkage checks, then
delegation to `VerifyScript` — with the `flags` parameter omitted, so the
default empty flag set is used. -/
def VerifySignature (env : Env) (txFrom txTo : CTx) (inIdx : Int) :
    Except ValidationErr Unit :=
  if inIdx < 0 then .error (.verifySignatureFailed "inIdx negative")
  else if (txTo.vin.length : Int) ≤ inIdx then
    .error (.verifySignatureFailed "inIdx beyond txTo.vin")
  else
    let txin := txTo.vin.getD inIdx.toNat default
    if txin.prevout.n < 0 then
      .error (.verifySignatureFailed "txin prevout.n negative")
    else if (txFrom.vout.length : Int) ≤ txin.prevout.n then
      .error (.verifySignatureFailed "txin prevout.n beyond txFrom.vout")
    else
      let txout := txFrom.vout.getD txin.prevout.n.toNat default
      if txin.prevout.hash ≠ env.txHash txFrom then
        .error (.verifySignatureFailed "prevout hash does not match txFrom")
      else
        VerifyScript env txin.scriptSig txout.scriptPubKey txTo inIdx []

/-! ### Concrete instantiations of the external capabilities.

The engine is parametric in its cryptographic collaborators, so concrete
evaluations fix simple computable instances. -/

/-- Trivial environment: every hash is empty and no signature verifies. -/
def env0 : Env where
  hash160 := fun _ => []
  hash256 := fun _ => []
  ripemd160 := fun _ => []
  sha1 := fun _ => []
  sha256 := fun _ => []
  rawSignatureHash := fun _ _ _ _ => []
  keyVerify := fun _ _ _ => false
  txHash := fun _ => []

/-- Environment in which a signature verifies against a public key exactly
when the signature body (hash-type byte stripped) equals the key bytes. -/
def env1 : Env := { env0 with keyVerify := fun pk _h sg => pk == sg }

/-- Environment whose `hash160` is constantly twenty zero bytes. -/
def env2 : Env := { env0 with hash160 := fun _ => List.replicate 20 0 }

/-- The empty transaction. -/
def tx0 : CTx := ⟨[], []⟩

/-- 2-of-3 multisig stack, keys `K1=[0x0b], K2=[0x0c], K3=[0x0d]` (pushed in
that order, so `K3` is nearest the top), with the signatures for `K1` and
`K2` supplied in ascending key order (`sig(K1)` pushed first): top-down the
stack reads key-count 3, `K3 K2 K1`, sig-count 2, `sig(K2) sig(K1)`, pad. -/
def ascStack : List VCH :=
  [[3], [0x0d], [0x0c], [0x0b], [2], [0x0c, 1], [0x0b, 1], []]

/-- Same keys, signatures supplied in descending key order
(`sig(K2)` pushed first). -/
def descStack : List VCH :=
  [[3], [0x0d], [0x0c], [0x0b], [2], [0x0b, 1], [0x0c, 1], []]

/-- A P2SH challenge script whose committed hash (`0x01` then nineteen zero
bytes) differs from `env2.hash160` of anything. -/
def pkBad : List Nat := [0xa9, 0x14] ++ (0x01 :: List.replicate 19 0) ++ [0x87]

/-- A P2SH challenge script whose committed hash (twenty zero bytes) is
`env2.hash160` of everything. -/
def pkGood : List Nat := [0xa9, 0x14] ++ List.replicate 20 0 ++ [0x87]

/-! ### Spec-side statement of the greedy multisig match -/

/-- Stated from the spec's words, for comparison with `msLoop`: a single
forward greedy pass — starting from the lowest-index remaining signature and
lowest-index remaining key, advance the key pointer until `checkSig`
succeeds or the keys are exhausted; a consumed key is never revisited for a
later signature. -/
def greedyMatchSpec (cs : VCH → VCH → Bool) : List VCH → List VCH → Bool
  | [], _ => true
  | _ :: _, [] => false
  | sig :: sigs, key :: keys =>
    if cs sig key then greedyMatchSpec cs sigs keys
    else greedyMatchSpec cs (sig :: sigs) keys


/-! ### Helper lemmas

Structural facts used by the claim theorems below: the correspondence of the
multisig matching loop with the spec's greedy description, stack-window
bookkeeping, fuel-irrelevance of the byte-level deletion, and the shape of a
single dispatcher step.
-/


theorem greedyMatchSpec_false_of_lt (cs : VCH → VCH → Bool) :
    ∀ (keys sigs : List VCH), keys.length < sigs.length →
      greedyMatchSpec cs sigs keys = false := by
  intro keys
  induction keys with
  | nil =>
    intro sigs h
    match sigs with
    | [] => simp at h
    | s :: ss => simp [greedyMatchSpec]
  | cons k ks ih =>
    intro sigs h
    match sigs with
    | [] => simp at h
    | s :: ss =>
      simp only [greedyMatchSpec]
      split
      · exact ih ss (by simp at h ⊢; omega)
      · exact ih (s :: ss) (by simp at h ⊢; omega)

theorem window_cons : ∀ (l : List VCH) (i n : Nat), i < l.length →
    (l.drop i).take (n + 1) = l.getD i [] :: (l.drop (i + 1)).take n := by
  intro l
  induction l with
  | nil => intro i n h; simp at h
  | cons x xs ih =>
    intro i n h
    match i with
    | 0 => simp
    | j + 1 =>
      simp only [List.drop_succ_cons, List.getD_cons_succ]
      exact ih j n (by simp at h; omega)

theorem window_length (l : List VCH) (i n : Nat) (h : i + n ≤ l.length) :
    ((l.drop i).take n).length = n := by
  simp [List.length_take, List.length_drop]
  omega



theorem msLoop_eq (cs : VCH → VCH → Bool) (opcode : Nat) :
    ∀ (kc : Nat) (stack : List VCH) (isig ikey sc : Nat),
      1 ≤ isig → 1 ≤ ikey →
      isig - 1 + sc ≤ stack.length →
      ikey - 1 + kc ≤ stack.length →
      msLoop cs opcode stack isig ikey sc kc =
        (if greedyMatchSpec cs ((stack.drop (isig - 1)).take sc)
            ((stack.drop (ikey - 1)).take kc) then .ok true
         else if opcode = OP_CHECKMULTISIGVERIFY then
           .error ⟨.verifyOpFailed opcode, stack⟩
         else .ok false) := by
  intro kc
  induction kc with
  | zero =>
    intro stack isig ikey sc hsig hkey hS hK
    match sc with
    | 0 => simp [msLoop, greedyMatchSpec]
    | s + 1 =>
      have hlt : ((stack.drop (ikey - 1)).take 0).length <
          ((stack.drop (isig - 1)).take (s + 1)).length := by
        rw [window_length stack (isig - 1) (s + 1) hS]
        simp
      rw [greedyMatchSpec_false_of_lt cs _ _ hlt]
      simp [msLoop]
  | succ k ih =>
    intro stack isig ikey sc hsig hkey hS hK
    match sc with
    | 0 => simp [msLoop, greedyMatchSpec]
    | s + 1 =>
      have hiS : isig - 1 < stack.length := by omega
      have hiK : ikey - 1 < stack.length := by omega
      rw [window_cons stack (isig - 1) s hiS, window_cons stack (ikey - 1) k hiK]
      have hisig : isig - 1 + 1 = isig := by omega
      have hikey : ikey - 1 + 1 = ikey := by omega
      rw [hisig, hikey]
      simp only [msLoop]
      by_cases hcs : cs (stack.getD (isig - 1) []) (stack.getD (ikey - 1) []) = true
      · -- hit: signature consumed
        simp only [hcs, if_pos, greedyMatchSpec]
        by_cases hgt : s > k
        · -- early exit: remaining sigs outnumber remaining keys
          have hlt : ((stack.drop ikey).take k).length <
              ((stack.drop isig).take s).length := by
            rw [window_length stack isig s (by omega),
              window_length stack ikey k (by omega)]
            omega
          rw [greedyMatchSpec_false_of_lt cs _ _ hlt]
          simp [hgt]
        · have hrec := ih stack (isig + 1) (ikey + 1) s (by omega) (by omega)
            (by simp; omega) (by simp; omega)
          simp only [Nat.add_sub_cancel] at hrec
          simp [hgt, hrec]
      · -- miss: key pointer advances alone
        simp only [Bool.not_eq_true] at hcs
        simp only [hcs, greedyMatchSpec]
        by_cases hgt : s + 1 > k
        · have hlt : ((stack.drop ikey).take k).length <
              ((stack.drop (isig - 1)).take (s + 1)).length := by
            rw [window_length stack (isig - 1) (s + 1) hS,
              window_length stack ikey k (by omega)]
            omega
          have := greedyMatchSpec_false_of_lt cs ((stack.drop ikey).take k)
            ((stack.drop (isig - 1)).take (s + 1)) hlt
          rw [window_cons stack (isig - 1) s hiS, hisig] at this
          rw [this]
          simp [hgt]
        · have hrec := ih stack isig (ikey + 1) (s + 1) (by omega) (by omega)
            (by omega) (by simp; omega)
          simp only [Nat.add_sub_cancel] at hrec
          rw [window_cons stack (isig - 1) s hiS, hisig] at hrec
          simp [hgt, hrec]



theorem pushSerialize_ne_nil (d : VCH) : pushSerialize d ≠ [] := by
  unfold pushSerialize
  split <;> try simp
  split <;> try simp
  split <;> simp

theorem replaceAllAux_fuel (pat : List Nat) (hp : pat ≠ []) :
    ∀ (f1 : Nat) (f2 : Nat) (s : List Nat), s.length ≤ f1 → s.length ≤ f2 →
      replaceAllAux pat f1 s = replaceAllAux pat f2 s := by
  intro f1
  induction f1 with
  | zero =>
    intro f2 s h1 _
    have : s = [] := by
      cases s with
      | nil => rfl
      | cons a t => simp at h1
    subst this
    cases f2 <;> rfl
  | succ f ih =>
    intro f2 s h1 h2
    cases s with
    | nil => cases f2 <;> rfl
    | cons b s' =>
      cases f2 with
      | zero => simp at h2
      | succ f2' =>
        simp only [replaceAllAux]
        split
        · have hpl : 1 ≤ pat.length := by
            cases pat with
            | nil => exact absurd rfl hp
            | cons _ _ => simp
          have hd : ((b :: s').drop pat.length).length ≤ f := by
            simp only [List.length_drop, List.length_cons]
            simp at h1
            omega
          have hd2 : ((b :: s').drop pat.length).length ≤ f2' := by
            simp only [List.length_drop, List.length_cons]
            simp at h2
            omega
          exact ih f2' _ hd hd2
        · have hs : s'.length ≤ f := by simp at h1; omega
          have hs2 : s'.length ≤ f2' := by simp at h2; omega
          rw [ih f2' s' hs hs2]

theorem replaceAllAux_no_occur (pat : List Nat) :
    ∀ (fuel : Nat) (s : List Nat), s.length ≤ fuel → ¬ pat <:+: s →
      replaceAllAux pat fuel s = s := by
  intro fuel
  induction fuel with
  | zero =>
    intro s h1 _
    cases s with
    | nil => rfl
    | cons a t => simp at h1
  | succ f ih =>
    intro s h1 hno
    cases s with
    | nil => rfl
    | cons b s' =>
      simp only [replaceAllAux]
      split
      · rename_i hpre
        exact absurd ((List.isPrefixOf_iff_prefix.mp hpre).isInfix) hno
      · rw [ih s' (by simp at h1; omega)
          (fun hinf => hno (List.infix_cons hinf))]

theorem replaceAll_no_occur (pat s : List Nat) (hno : ¬ pat <:+: s) :
    replaceAll pat s = s := by
  unfold replaceAll
  split
  · rfl
  · exact replaceAllAux_no_occur pat s.length s le_rfl hno

theorem replaceAll_pat_append (pat s : List Nat) (hp : pat ≠ []) :
    replaceAll pat (pat ++ s) = replaceAll pat s := by
  unfold replaceAll
  rw [if_neg hp, if_neg hp]
  cases pat with
  | nil => exact absurd rfl hp
  | cons p ps =>
    rw [replaceAllAux_fuel (p :: ps) (by simp) ((p :: ps) ++ s).length
      ((ps ++ s).length + 1) ((p :: ps) ++ s) le_rfl (by simp)]
    simp only [List.cons_append, replaceAllAux, List.append_eq]
    have hpre : (p :: ps).isPrefixOf (p :: (ps ++ s)) = true :=
      List.isPrefixOf_iff_prefix.mpr
        (by rw [← List.cons_append]; exact List.prefix_append _ _)
    rw [if_pos hpre]
    have hdrop : (p :: (ps ++ s)).drop (p :: ps).length = s := by
      rw [← List.cons_append]
      exact List.drop_left _ _
    rw [hdrop]
    exact replaceAllAux_fuel (p :: ps) (by simp) _ _ s
      (by simp) le_rfl



theorem evalStep_of_body_noskip (env : Env) (txTo : CTx) (inIdx : Int)
    (scriptIn : List Nat) (st : ExecState) (sop : Nat) (sopData : List Nat)
    (sopPc : Nat) (st' : ExecState)
    (h : evalStepBody env txTo inIdx scriptIn st sop sopData sopPc = .ok (st', false)) :
    evalStep env txTo inIdx scriptIn st sop sopData sopPc =
      (if MAX_STACK_ITEMS < st'.frame.stack.length + st'.frame.altstack.length then
        .error ⟨.scriptError "max stack items limit reached", st'.frame.stack⟩
      else .ok st') := by
  simp [evalStep, h]

theorem evalStep_of_body_skip (env : Env) (txTo : CTx) (inIdx : Int)
    (scriptIn : List Nat) (st : ExecState) (sop : Nat) (sopData : List Nat)
    (sopPc : Nat) (st' : ExecState)
    (h : evalStepBody env txTo inIdx scriptIn st sop sopData sopPc = .ok (st', true)) :
    evalStep env txTo inIdx scriptIn st sop sopData sopPc = .ok st'
    ∧ sop ≤ OP_PUSHDATA4 ∧ checkExec st.frame.vfExec = true
    ∧ st'.frame.stack = sopData :: st.frame.stack := by
  refine ⟨by simp [evalStep, h], ?_⟩
  simp only [evalStepBody] at h
  split_ifs at h <;> try simp at h
  all_goals
    try (cases hrest : evalStepRest env txTo inIdx scriptIn st.frame
          (checkExec st.frame.vfExec) sop sopPc <;>
        rw [hrest] at h <;> simp at h)
  all_goals (rw [← h]; exact ⟨‹_›, ‹_›, rfl⟩)

theorem body_nOpCount_incr (env : Env) (txTo : CTx) (inIdx : Int)
    (scriptIn : List Nat) (st : ExecState) (sop : Nat) (sopData : List Nat)
    (sopPc : Nat) (st' : ExecState) (c : Bool)
    (hop : OP_16 < sop)
    (h : evalStepBody env txTo inIdx scriptIn st sop sopData sopPc = .ok (st', c)) :
    st'.nOpCount = st.nOpCount + 1 := by
  simp only [evalStepBody] at h
  split_ifs at h <;> try simp at h
  all_goals
    try (cases hrest : evalStepRest env txTo inIdx scriptIn st.frame
          (checkExec st.frame.vfExec) sop sopPc <;>
        rw [hrest] at h <;> simp at h)
  all_goals rw [← h.1]

theorem body_nOpCount_same (env : Env) (txTo : CTx) (inIdx : Int)
    (scriptIn : List Nat) (st : ExecState) (sop : Nat) (sopData : List Nat)
    (sopPc : Nat) (st' : ExecState) (c : Bool)
    (hop : sop ≤ OP_16)
    (h : evalStepBody env txTo inIdx scriptIn st sop sopData sopPc = .ok (st', c)) :
    st'.nOpCount = st.nOpCount := by
  simp only [evalStepBody] at h
  split_ifs at h <;> try simp at h
  all_goals try omega
  all_goals
    try (cases hrest : evalStepRest env txTo inIdx scriptIn st.frame
          (checkExec st.frame.vfExec) sop sopPc <;>
        rw [hrest] at h <;> simp at h)
  all_goals rw [← h.1]

theorem body_budget_fail (env : Env) (txTo : CTx) (inIdx : Int)
    (scriptIn : List Nat) (st : ExecState) (sop : Nat) (sopData : List Nat)
    (sopPc : Nat)
    (hop : OP_16 < sop) (hcount : MAX_SCRIPT_OPCODES ≤ st.nOpCount) :
    ∃ e, evalStepBody env txTo inIdx scriptIn st sop sopData sopPc = .error e := by
  simp only [evalStepBody]
  split_ifs <;> first | exact ⟨_, rfl⟩ | omega



theorem verifyScript_no_p2sh_flag (env : Env) (sg pk : List Nat) (tx : CTx)
    (j : Int) :
    VerifyScript env sg pk tx j [] = verifyScriptNoP2SH env sg pk tx j [] := by
  unfold VerifyScript verifyScriptNoP2SH
  generalize EvalScript env [] sg tx j [] = r1
  cases r1 with
  | error f => rfl
  | ok stack =>
    generalize EvalScript env stack pk tx j [] = r2
    cases r2 with
    | error f => rfl
    | ok stack2 =>
      by_cases hlen : stack2.length = 0
      · simp [hlen]
      · by_cases hcb : CastToBool (stack2.getD 0 []) = false
        · simp [hlen, hcb]
        · simp [hlen, hcb]

/-! ### The claims -/

/-- C1: for every executed `OP_CHECKMULTISIG`/`OP_CHECKMULTISIGVERIFY`,
matching of signatures to public keys is a single forward greedy pass
(`msLoop` equals the spec's `greedyMatchSpec` on the signature and key
windows of the stack; for the VERIFY form a failed match raises instead of
reporting false); concretely, for keys `[K1,K2,K3]` as 2-of-3 with valid
signatures for `K1` and `K2`, ascending supply order succeeds and descending
supply order fails. -/
theorem C1_checkmultisig_greedy_forward_pass :
    (∀ (cs : VCH → VCH → Bool) (stack : List VCH) (isig ikey sc kc : Nat),
      1 ≤ isig → 1 ≤ ikey →
      isig - 1 + sc ≤ stack.length → ikey - 1 + kc ≤ stack.length →
      msLoop cs OP_CHECKMULTISIG stack isig ikey sc kc =
        .ok (greedyMatchSpec cs ((stack.drop (isig - 1)).take sc)
          ((stack.drop (ikey - 1)).take kc))
      ∧ msLoop cs OP_CHECKMULTISIGVERIFY stack isig ikey sc kc =
        (if greedyMatchSpec cs ((stack.drop (isig - 1)).take sc)
            ((stack.drop (ikey - 1)).take kc) then .ok true
         else .error ⟨.verifyOpFailed OP_CHECKMULTISIGVERIFY, stack⟩))
    ∧ CheckMultiSig env1 OP_CHECKMULTISIG [] ascStack tx0 0 = .ok [[0x01]]
    ∧ CheckMultiSig env1 OP_CHECKMULTISIG [] descStack tx0 0 = .ok [[0x00]] := by
  refine ⟨?_, by rfl, by rfl⟩
  intro cs stack isig ikey sc kc h1 h2 h3 h4
  constructor
  · rw [msLoop_eq cs OP_CHECKMULTISIG kc stack isig ikey sc h1 h2 h3 h4]
    by_cases hg : greedyMatchSpec cs ((stack.drop (isig - 1)).take sc)
        ((stack.drop (ikey - 1)).take kc) = true
    · simp [hg]
    · simp only [Bool.not_eq_true] at hg
      simp [hg, OP_CHECKMULTISIG, OP_CHECKMULTISIGVERIFY]
  · rw [msLoop_eq cs OP_CHECKMULTISIGVERIFY kc stack isig ikey sc h1 h2 h3 h4]
    by_cases hg : greedyMatchSpec cs ((stack.drop (isig - 1)).take sc)
        ((stack.drop (ikey - 1)).take kc) = true
    · simp [hg]
    · simp only [Bool.not_eq_true] at hg
      simp [hg]

/-- Witness for C1 at a concrete input. -/
theorem C1_checkmultisig_greedy_forward_pass_witness :
    msLoop (fun _ _ => false) OP_CHECKMULTISIG ([[]] : List VCH) 1 1 1 1 =
      .ok (greedyMatchSpec (fun _ _ => false)
        ((([[]] : List VCH).drop (1 - 1)).take 1)
        ((([[]] : List VCH).drop (1 - 1)).take 1)) :=
  (C1_checkmultisig_greedy_forward_pass.1 (fun _ _ => false) [[]] 1 1 1 1
    (by decide) (by decide) (by decide) (by decide)).1

/-- C2: the claim says a successful `OP_CHECKMULTISIGVERIFY` pops the
consumed entries, pushes nothing and falls through silently.  The code pops
the entries and then hits `assert opcode == OP_CHECKMULTISIG` (line 204),
which is false for the VERIFY opcode, so the successful VERIFY path raises
`AssertionError` instead of falling through: here on the trivially
successful 0-of-0 multisig, both at the `_CheckMultiSig` level and through
the evaluator. -/
theorem C2_checkmultisigverify_success_asserts :
    CheckMultiSig env0 OP_CHECKMULTISIGVERIFY [] [[], [], []] tx0 0 =
      .error ⟨.assertionError "opcode == OP_CHECKMULTISIG", []⟩ ∧
    EvalScript env0 [] [0x00, 0x00, 0x00, OP_CHECKMULTISIGVERIFY] tx0 0 [] =
      .error ⟨.assertionError "opcode == OP_CHECKMULTISIG", []⟩ :=
  ⟨rfl, rfl⟩

/-- C3 counterexample: the claim says the combined stack-size invariant is
re-checked after every instruction, including executed push opcodes.  The
executed-push branch ends in `continue` (line 404), skipping the size check
(lines 670-672): two pushes on top of a 999-deep stack run to successful
completion with 1001 stack items, instead of failing at the 1001st. -/
theorem C3_counterexample :
    EvalScript env0 (List.replicate 999 ([] : VCH)) [0x00, 0x00] tx0 0 [] =
      .ok (List.replicate 1001 ([] : VCH)) ∧
    MAX_STACK_ITEMS < (List.replicate 1001 ([] : VCH)).length := by
  constructor
  · rfl
  · decide

/-- C3 (amended): the stack-size invariant is re-checked immediately after
every instruction whose loop body does not take the executed-push `continue`
path — for those the step succeeds only under the limit and fails exactly
when the body's result exceeds it; the `continue` path, taken precisely by
an executed push opcode, returns with no size check. -/
theorem C3_stack_limit_amended :
    (∀ (env : Env) (txTo : CTx) (inIdx : Int) (scriptIn : List Nat)
        (st : ExecState) (sop : Nat) (sopData : List Nat) (sopPc : Nat)
        (st' : ExecState),
      evalStepBody env txTo inIdx scriptIn st sop sopData sopPc = .ok (st', false) →
      evalStep env txTo inIdx scriptIn st sop sopData sopPc =
        (if MAX_STACK_ITEMS < st'.frame.stack.length + st'.frame.altstack.length then
          .error ⟨.scriptError "max stack items limit reached", st'.frame.stack⟩
        else .ok st'))
    ∧ (∀ (env : Env) (txTo : CTx) (inIdx : Int) (scriptIn : List Nat)
        (st : ExecState) (sop : Nat) (sopData : List Nat) (sopPc : Nat)
        (st' : ExecState),
      evalStepBody env txTo inIdx scriptIn st sop sopData sopPc = .ok (st', true) →
      evalStep env txTo inIdx scriptIn st sop sopData sopPc = .ok st'
      ∧ sop ≤ OP_PUSHDATA4 ∧ checkExec st.frame.vfExec = true
      ∧ st'.frame.stack = sopData :: st.frame.stack) :=
  ⟨fun env txTo inIdx scriptIn st sop sopData sopPc st' h =>
    evalStep_of_body_noskip env txTo inIdx scriptIn st sop sopData sopPc st' h,
   fun env txTo inIdx scriptIn st sop sopData sopPc st' h =>
    evalStep_of_body_skip env txTo inIdx scriptIn st sop sopData sopPc st' h⟩

/-- Witness for C3's amended theorem at a concrete input (an `OP_NOP` step
from the empty context). -/
theorem C3_stack_limit_amended_witness :
    evalStep env0 tx0 0 [] ⟨⟨[], [], [], 0⟩, 0⟩ OP_NOP [] 0 =
      (if MAX_STACK_ITEMS <
          (⟨⟨[], [], [], 0⟩, 1⟩ : ExecState).frame.stack.length +
            (⟨⟨[], [], [], 0⟩, 1⟩ : ExecState).frame.altstack.length then
        .error ⟨.scriptError "max stack items limit reached",
          (⟨⟨[], [], [], 0⟩, 1⟩ : ExecState).frame.stack⟩
      else .ok ⟨⟨[], [], [], 0⟩, 1⟩) :=
  C3_stack_limit_amended.1 env0 tx0 0 [] ⟨⟨[], [], [], 0⟩, 0⟩ OP_NOP [] 0
    ⟨⟨[], [], [], 0⟩, 1⟩ (by rfl)

/-- C4: the claim says `OP_ROLL`, `OP_CHECKSIGVERIFY` and
`OP_CHECKMULTISIGVERIFY` are no-ops inside a non-executed branch.  The
dispatch conditions `fExec and sop == OP_PICK or sop == OP_ROLL` (line 586)
and their CHECKSIG/CHECKMULTISIG analogues (lines 463, 467) parse as
`(fExec and ...) or sop == X`, so these three opcodes execute even when
`fExec` is false: inside `OP_0 OP_IF ... OP_ENDIF` each raises a
missing-arguments error on the empty stack instead of being skipped, while a
correctly gated opcode such as `OP_DROP` is skipped and the script
succeeds. -/
theorem C4_nonexecuted_branch_not_noop :
    EvalScript env0 [] [0x00, OP_IF, OP_ROLL, OP_ENDIF] tx0 0 [] =
      .error ⟨.missingOpArguments OP_ROLL 2, []⟩ ∧
    EvalScript env0 [] [0x00, OP_IF, OP_CHECKSIGVERIFY, OP_ENDIF] tx0 0 [] =
      .error ⟨.missingOpArguments OP_CHECKSIGVERIFY 2, []⟩ ∧
    EvalScript env0 [] [0x00, OP_IF, OP_CHECKMULTISIGVERIFY, OP_ENDIF] tx0 0 [] =
      .error ⟨.missingOpArguments OP_CHECKMULTISIGVERIFY 1, []⟩ ∧
    EvalScript env0 [] [0x00, OP_IF, OP_DROP, OP_ENDIF] tx0 0 [] = .ok [] :=
  ⟨rfl, rfl, rfl, rfl⟩

/-- C5: `OP_NUMEQUALVERIFY` decodes both operands without popping, so on
unequal operands it raises a verify-failure carrying the stack exactly as it
stood before the opcode; on equal operands it pops both and pushes
nothing. -/
theorem C5_numequalverify_stack_semantics :
    ∀ (b2 b1 : VCH) (rest : List VCH),
      b2.length ≤ nMaxNumSize → b1.length ≤ nMaxNumSize →
      (vch2bn b1 ≠ vch2bn b2 →
        binOp OP_NUMEQUALVERIFY (b2 :: b1 :: rest) =
          .error ⟨.verifyOpFailed OP_NUMEQUALVERIFY, b2 :: b1 :: rest⟩)
      ∧ (vch2bn b1 = vch2bn b2 →
        binOp OP_NUMEQUALVERIFY (b2 :: b1 :: rest) = .ok rest) := by
  intro b2 b1 rest hl2 hl1
  have hcast2 : castToBigNum b2 (b2 :: b1 :: rest) = .ok (vch2bn b2) := by
    unfold castToBigNum
    rw [if_neg (by omega)]
  have hcast1 : castToBigNum b1 (b2 :: b1 :: rest) = .ok (vch2bn b1) := by
    unfold castToBigNum
    rw [if_neg (by omega)]
  constructor
  · intro hne
    simp [binOp, hcast2, hcast1, hne]
  · intro heq
    simp [binOp, hcast2, hcast1, heq]

/-- Witness for C5 at concrete inputs. -/
theorem C5_numequalverify_stack_semantics_witness :
    binOp OP_NUMEQUALVERIFY [[3], [2], [7]] =
      .error ⟨.verifyOpFailed OP_NUMEQUALVERIFY, [[3], [2], [7]]⟩ ∧
    binOp OP_NUMEQUALVERIFY [[2], [2], [7]] = .ok [[7]] :=
  ⟨(C5_numequalverify_stack_semantics [3] [2] [[7]] (by decide) (by decide)).1
    (by decide),
   (C5_numequalverify_stack_semantics [2] [2] [[7]] (by decide) (by decide)).2
    rfl⟩

/-- C6: every opcode above `OP_16` increments the non-push opcode counter
exactly once (and only those do), the counter exceeding 201 fails the step
immediately, and concretely a script of 201 `OP_NOP`s succeeds while one of
202 fails. -/
theorem C6_opcode_budget :
    (∀ (env : Env) (txTo : CTx) (inIdx : Int) (scriptIn : List Nat)
        (st : ExecState) (sop : Nat) (sopData : List Nat) (sopPc : Nat)
        (st' : ExecState) (c : Bool),
      OP_16 < sop →
      evalStepBody env txTo inIdx scriptIn st sop sopData sopPc = .ok (st', c) →
      st'.nOpCount = st.nOpCount + 1)
    ∧ (∀ (env : Env) (txTo : CTx) (inIdx : Int) (scriptIn : List Nat)
        (st : ExecState) (sop : Nat) (sopData : List Nat) (sopPc : Nat)
        (st' : ExecState) (c : Bool),
      sop ≤ OP_16 →
      evalStepBody env txTo inIdx scriptIn st sop sopData sopPc = .ok (st', c) →
      st'.nOpCount = st.nOpCount)
    ∧ (∀ (env : Env) (txTo : CTx) (inIdx : Int) (scriptIn : List Nat)
        (st : ExecState) (sop : Nat) (sopData : List Nat) (sopPc : Nat),
      OP_16 < sop → MAX_SCRIPT_OPCODES ≤ st.nOpCount →
      ∃ e, evalStepBody env txTo inIdx scriptIn st sop sopData sopPc = .error e)
    ∧ EvalScript env0 [] (List.replicate 201 OP_NOP) tx0 0 [] = .ok []
    ∧ EvalScript env0 [] (List.replicate 202 OP_NOP) tx0 0 [] =
        .error ⟨.scriptError "max opcode count exceeded", []⟩ :=
  ⟨fun env txTo inIdx scriptIn st sop sopData sopPc st' c hop h =>
    body_nOpCount_incr env txTo inIdx scriptIn st sop sopData sopPc st' c hop h,
   fun env txTo inIdx scriptIn st sop sopData sopPc st' c hop h =>
    body_nOpCount_same env txTo inIdx scriptIn st sop sopData sopPc st' c hop h,
   fun env txTo inIdx scriptIn st sop sopData sopPc hop hcount =>
    body_budget_fail env txTo inIdx scriptIn st sop sopData sopPc hop hcount,
   rfl, rfl⟩

/-- Witness for C6 at a concrete input (one `OP_NOP` step). -/
theorem C6_opcode_budget_witness :
    (⟨⟨[], [], [], 0⟩, 1⟩ : ExecState).nOpCount =
      (⟨⟨[], [], [], 0⟩, 0⟩ : ExecState).nOpCount + 1 :=
  C6_opcode_budget.1 env0 tx0 0 [] ⟨⟨[], [], [], 0⟩, 0⟩ OP_NOP [] 0
    ⟨⟨[], [], [], 0⟩, 1⟩ false (by decide) (by rfl)

/-- C7 counterexample: the claim says that (P2SH flag set, challenge
matching the hash template, claimant push-only) verification fails exactly
when the inner redeem-script evaluation fails or ends with an empty or false
stack.  Here the challenge commits to a hash different from
`env2.hash160`, so the ordinary challenge run already pushes false and
`VerifyScript` fails — while the inner evaluation (redeem script `OP_1`
against the remaining snapshot) succeeds with a true top. -/
theorem C7_counterexample :
    is_p2sh pkBad = true ∧ is_push_only [0x01, 0x51] = true ∧
    VerifyScript env2 [0x01, 0x51] pkBad tx0 0 [ScriptVerifyFlag.p2sh] =
      .error (.verifyScriptFailed "scriptPubKey returned false") ∧
    EvalScript env2 [] [0x01, 0x51] tx0 0 [ScriptVerifyFlag.p2sh] = .ok [[0x51]] ∧
    EvalScript env2 [] [0x51] tx0 0 [ScriptVerifyFlag.p2sh] = .ok [[0x01]] ∧
    CastToBool [0x01] = true :=
  ⟨rfl, rfl, rfl, rfl, rfl, rfl⟩

/-- C7 (amended): with the P2SH flag set, the challenge matching the hash
template, and the standard sequential evaluation of claimant and challenge
having succeeded with a nonempty true-top stack: verification fails if the
claimant is not push-only, and otherwise the top of the snapshot is popped
and evaluated as a redeem script against the remaining snapshot, the overall
result failing exactly when that inner evaluation fails or leaves an empty
stack or a false top. -/
theorem C7_p2sh_amended :
    ∀ (env : Env) (sg pk : List Nat) (tx : CTx) (inIdx : Int)
      (flags : List ScriptVerifyFlag) (st1 st2 : List VCH),
      ScriptVerifyFlag.p2sh ∈ flags →
      is_p2sh pk = true →
      EvalScript env [] sg tx inIdx flags = .ok st1 →
      EvalScript env st1 pk tx inIdx flags = .ok st2 →
      st2 ≠ [] →
      CastToBool (st2.getD 0 []) = true →
      (is_push_only sg = false →
        VerifyScript env sg pk tx inIdx flags =
          .error (.verifyScriptFailed "P2SH scriptSig not is_push_only"))
      ∧ (is_push_only sg = true → ∀ (top : VCH) (remaining : List VCH),
          st1 = top :: remaining →
          VerifyScript env sg pk tx inIdx flags =
            (match EvalScript env remaining top tx inIdx flags with
             | .error f => .error (.evalFailed f)
             | .ok st =>
               if st.length = 0 then
                 .error (.verifyScriptFailed "P2SH inner scriptPubKey left an empty stack")
               else if CastToBool (st.getD 0 []) = false then
                 .error (.verifyScriptFailed "P2SH inner scriptPubKey returned false")
               else .ok ())) := by
  intro env sg pk tx inIdx flags st1 st2 hflag hp2sh h1 h2 hne htop
  constructor
  · intro hpo
    simp only [VerifyScript, h1, h2]
    rw [if_neg (by simp [List.length_eq_zero]; exact hne)]
    rw [if_neg (by rw [htop]; simp)]
    rw [if_pos ⟨hflag, hp2sh⟩]
    rw [if_pos hpo]
  · intro hpo top remaining hst1
    subst hst1
    simp only [VerifyScript, h1, h2]
    rw [if_neg (by simp [List.length_eq_zero]; exact hne)]
    rw [if_neg (by rw [htop]; simp)]
    rw [if_pos ⟨hflag, hp2sh⟩]
    rw [if_neg (by simp [hpo])]

/-- Witness for C7's amended theorem: a matching-hash P2SH round trip. -/
theorem C7_p2sh_amended_witness :
    VerifyScript env2 [0x01, 0x51] pkGood tx0 0 [ScriptVerifyFlag.p2sh] =
      (match EvalScript env2 [] [0x51] tx0 0 [ScriptVerifyFlag.p2sh] with
       | .error f => .error (.evalFailed f)
       | .ok st =>
         if st.length = 0 then
           .error (.verifyScriptFailed "P2SH inner scriptPubKey left an empty stack")
         else if CastToBool (st.getD 0 []) = false then
           .error (.verifyScriptFailed "P2SH inner scriptPubKey returned false")
         else .ok ()) :=
  (C7_p2sh_amended env2 [0x01, 0x51] pkGood tx0 0 [ScriptVerifyFlag.p2sh]
      [[0x51]] [[0x01]] (by decide) (by rfl) (by rfl) (by rfl) (by decide)
      (by rfl)).2 (by rfl) [0x51] [] rfl

/-- C8: the claim says out-of-range multisig counts surface as the
arguments-invalid error kind.  `ArgumentsInvalidError.__init__` calls
`super(MissingOpArgumentsError, self).__init__`, which raises `TypeError`
because `self` is not a `MissingOpArgumentsError`, so every such failure
surfaces as a Python `TypeError` instead of the arguments-invalid kind
(modelled as `typeErrorBadSuper`): key-count 21 and a signature-count
exceeding the key count, both directly and through the evaluator. -/
theorem C8_count_errors_surface_as_typeerror :
    CheckMultiSig env0 OP_CHECKMULTISIG [] [[21]] tx0 0 =
      .error ⟨.typeErrorBadSuper OP_CHECKMULTISIG "keys count invalid", [[21]]⟩ ∧
    CheckMultiSig env0 OP_CHECKMULTISIG [] [[3], [1], [1], [1], [4]] tx0 0 =
      .error ⟨.typeErrorBadSuper OP_CHECKMULTISIG "sigs count invalid",
        [[3], [1], [1], [1], [4]]⟩ ∧
    EvalScript env0 [] [0x01, 0x15, OP_CHECKMULTISIG] tx0 0 [] =
      .error ⟨.typeErrorBadSuper OP_CHECKMULTISIG "keys count invalid", [[0x15]]⟩ :=
  ⟨rfl, rfl, rfl⟩

/-- C9: `VerifySignature` delegates to `VerifyScript` with no verification
flags (the Python call omits the `flags` argument), and with the empty flag
set `VerifyScript` coincides with the plain no-P2SH orchestration, so the
P2SH redemption rule is never applied on this path. -/
theorem C9_verifysignature_empty_flags :
    ∀ (env : Env) (txFrom txTo : CTx) (inIdx : Int),
      ¬ inIdx < 0 →
      ¬ (txTo.vin.length : Int) ≤ inIdx →
      ¬ (txTo.vin.getD inIdx.toNat default).prevout.n < 0 →
      ¬ (txFrom.vout.length : Int) ≤ (txTo.vin.getD inIdx.toNat default).prevout.n →
      (txTo.vin.getD inIdx.toNat default).prevout.hash = env.txHash txFrom →
      VerifySignature env txFrom txTo inIdx =
        VerifyScript env (txTo.vin.getD inIdx.toNat default).scriptSig
          (txFrom.vout.getD (txTo.vin.getD inIdx.toNat default).prevout.n.toNat
            default).scriptPubKey txTo inIdx []
      ∧ ∀ (sg pk : List Nat) (tx : CTx) (j : Int),
          VerifyScript env sg pk tx j [] = verifyScriptNoP2SH env sg pk tx j [] := by
  intro env txFrom txTo inIdx h0 h1 h2 h3 h4
  refine ⟨?_, fun sg pk tx j => verifyScript_no_p2sh_flag env sg pk tx j⟩
  unfold VerifySignature
  rw [if_neg h0, if_neg h1, if_neg h2, if_neg h3, if_neg (not_not_intro h4)]

/-- Witness for C9 at a concrete one-input transaction pair. -/
theorem C9_verifysignature_empty_flags_witness :
    VerifySignature env0 ⟨[], [⟨[0x51]⟩]⟩ ⟨[⟨⟨[], 0⟩, []⟩], []⟩ 0 =
      VerifyScript env0
        (((⟨[⟨⟨[], 0⟩, []⟩], []⟩ : CTx).vin.getD (0 : Int).toNat default).scriptSig)
        (((⟨[], [⟨[0x51]⟩]⟩ : CTx).vout.getD
          ((⟨[⟨⟨[], 0⟩, []⟩], []⟩ : CTx).vin.getD
            (0 : Int).toNat default).prevout.n.toNat default).scriptPubKey)
        ⟨[⟨⟨[], 0⟩, []⟩], []⟩ 0 [] :=
  (C9_verifysignature_empty_flags env0 ⟨[], [⟨[0x51]⟩]⟩ ⟨[⟨⟨[], 0⟩, []⟩], []⟩ 0
    (by decide) (by decide) (by decide) (by decide) (by rfl)).1

/-- C10: `_FindAndDelete` removes every non-overlapping occurrence of the
canonical push-encoding of the signature (the encoding is never empty, and a
leading occurrence is removed with scanning continuing on the remainder, so
deletion is not limited to the first occurrence — concretely both
occurrences in `01 AA 55 01 AA` are removed), and it returns the script
unchanged when the canonical encoding does not occur, including when the
same signature appears under a non-canonical `PUSHDATA2` push. -/
theorem C10_findanddelete_all_occurrences :
    (∀ sig : VCH, pushSerialize sig ≠ [])
    ∧ (∀ (sig : VCH) (s : List Nat), ¬ pushSerialize sig <:+: s →
        FindAndDelete s sig = s)
    ∧ (∀ (sig : VCH) (s : List Nat),
        FindAndDelete (pushSerialize sig ++ s) sig = FindAndDelete s sig)
    ∧ FindAndDelete [0x01, 0xAA, 0x55, 0x01, 0xAA] [0xAA] = [0x55]
    ∧ FindAndDelete [0x4d, 0x02, 0x00, 0xAA, 0xBB] [0xAA, 0xBB] =
        [0x4d, 0x02, 0x00, 0xAA, 0xBB] :=
  ⟨pushSerialize_ne_nil,
   fun sig s h => replaceAll_no_occur (pushSerialize sig) s h,
   fun sig s => replaceAll_pat_append (pushSerialize sig) s (pushSerialize_ne_nil sig),
   rfl, rfl⟩

/-- Witness for C10 at a concrete input (the non-canonical push is left
untouched because the canonical encoding does not occur in it). -/
theorem C10_findanddelete_all_occurrences_witness :
    FindAndDelete [0x4d, 0x02, 0x00, 0xAA, 0xBB] [0xAA] =
      [0x4d, 0x02, 0x00, 0xAA, 0xBB] :=
  C10_findanddelete_all_occurrences.2.1 [0xAA] [0x4d, 0x02, 0x00, 0xAA, 0xBB]
    (by decide)

end ScriptEval
